import Mathlib

/-!
Verification of the AgentFlow session-orchestration engine
(`python-agents/orchestrator/graph.py` and collaborators) against its
natural-language specification.  The Python code is shallowly embedded:
the mutable `AnalysisState` dataclass becomes a Lean structure, the
LangGraph workflow becomes an explicit driver function, external
collaborators (PHP parser, documenter agent's LLM round trip, wall
clock) become explicit oracle functions threaded through an `Env`
record, and the durable store is modelled as a trace of operations.
-/

namespace AgentFlow

/-- Transport-neutral JSON-like values.  This models the Python values
that flow through the orchestrator: entries of `parsed_elements`,
`agent_outputs`, `progress` and `metadata`, the dictionary produced by
`AnalysisState.to_dict`, and the payloads stored in the Redis cache. -/
inductive JVal where
  | null : JVal
  | bool : Bool → JVal
  | int : Int → JVal
  | str : String → JVal
  | arr : List JVal → JVal
  | obj : List (String × JVal) → JVal
  deriving Repr

mutual

/-- Boolean equality on JSON-like values (structural). -/
def JVal.beq : JVal → JVal → Bool
  | .null, .null => true
  | .bool a, .bool b => a == b
  | .int a, .int b => a == b
  | .str a, .str b => a == b
  | .arr a, .arr b => JVal.beqList a b
  | .obj a, .obj b => JVal.beqObj a b
  | _, _ => false

/-- Boolean equality on lists of JSON-like values. -/
def JVal.beqList : List JVal → List JVal → Bool
  | [], [] => true
  | a :: as_, b :: bs => JVal.beq a b && JVal.beqList as_ bs
  | _, _ => false

/-- Boolean equality on keyed lists of JSON-like values. -/
def JVal.beqObj : List (String × JVal) → List (String × JVal) → Bool
  | [], [] => true
  | (ka, a) :: as_, (kb, b) :: bs => ka == kb && JVal.beq a b && JVal.beqObj as_ bs
  | _, _ => false

end

mutual

theorem JVal.beq_eq : ∀ a b : JVal, JVal.beq a b = true → a = b
  | .null, .null, _ => rfl
  | .bool a, .bool b, h => by
      simp only [JVal.beq, beq_iff_eq] at h; exact h ▸ rfl
  | .int a, .int b, h => by
      simp only [JVal.beq, beq_iff_eq] at h; exact h ▸ rfl
  | .str a, .str b, h => by
      simp only [JVal.beq, beq_iff_eq] at h; exact h ▸ rfl
  | .arr a, .arr b, h => by
      rw [JVal.beqList_eq a b h]
  | .obj a, .obj b, h => by
      rw [JVal.beqObj_eq a b h]

theorem JVal.beqList_eq : ∀ as_ bs : List JVal, JVal.beqList as_ bs = true → as_ = bs
  | [], [], _ => rfl
  | a :: as_, b :: bs, h => by
      simp only [JVal.beqList, Bool.and_eq_true] at h
      rw [JVal.beq_eq a b h.1, JVal.beqList_eq as_ bs h.2]

theorem JVal.beqObj_eq :
    ∀ as_ bs : List (String × JVal), JVal.beqObj as_ bs = true → as_ = bs
  | [], [], _ => rfl
  | (ka, a) :: as_, (kb, b) :: bs, h => by
      simp only [JVal.beqObj, Bool.and_eq_true, beq_iff_eq] at h
      rw [h.1.1, JVal.beq_eq a b h.1.2, JVal.beqObj_eq as_ bs h.2]

end

mutual

theorem JVal.beq_refl : ∀ a : JVal, JVal.beq a a = true
  | .null => rfl
  | .bool a => by simp [JVal.beq]
  | .int a => by simp [JVal.beq]
  | .str a => by simp [JVal.beq]
  | .arr a => JVal.beqList_refl a
  | .obj a => JVal.beqObj_refl a

theorem JVal.beqList_refl : ∀ as_ : List JVal, JVal.beqList as_ as_ = true
  | [] => rfl
  | a :: as_ => by
      simp only [JVal.beqList, Bool.and_eq_true]
      exact ⟨JVal.beq_refl a, JVal.beqList_refl as_⟩

theorem JVal.beqObj_refl :
    ∀ as_ : List (String × JVal), JVal.beqObj as_ as_ = true
  | [] => rfl
  | (ka, a) :: as_ => by
      simp only [JVal.beqObj, Bool.and_eq_true, beq_self_eq_true]
      exact ⟨⟨trivial, JVal.beq_refl a⟩, JVal.beqObj_refl as_⟩

end

instance : DecidableEq JVal := fun a b =>
  if h : JVal.beq a b = true then isTrue (JVal.beq_eq a b h)
  else isFalse (fun he => h (he ▸ JVal.beq_refl a))

/-- Python-dict style insertion: if the key is present its value is
replaced in place (insertion order kept), otherwise the pair is
appended at the end, exactly as CPython dicts behave. -/
def dictSet {α : Type} : List (String × α) → String → α → List (String × α)
  | [], k, v => [(k, v)]
  | (k', v') :: rest, k, v =>
      if k' = k then (k, v) :: rest else (k', v') :: dictSet rest k v

/-- Python-dict lookup (`d.get(k)` / `d[k]` when present). -/
def dictGet {α : Type} : List (String × α) → String → Option α
  | [], _ => none
  | (k', v) :: rest, k => if k' = k then some v else dictGet rest k

/-- Python-dict deletion (`del d[k]`, a no-op here when absent; the
caller guards with `in` where the source does). -/
def dictDel {α : Type} : List (String × α) → String → List (String × α)
  | [], _ => []
  | (k', v) :: rest, k => if k' = k then dictDel rest k else (k', v) :: dictDel rest k

/-- Python's `str.endswith`, computed on the character list view of
the strings. -/
def strEndsWith (s suf : String) : Bool := suf.data.isSuffixOf s.data

/-- One uploaded file, a dict with keys `path` and `content` in the
source (`files: List[Dict[str, str]]`). -/
structure FileData where
  path : String
  content : String
  deriving Repr, DecidableEq

/-- The `AnalysisState` dataclass of `orchestrator/graph.py`: the
session record threaded through one pipeline run. -/
structure AnalysisState where
  session_id : String
  project_id : Int
  files : List FileData
  parsed_elements : List (String × JVal)
  agent_outputs : List (String × JVal)
  current_agent : Option String
  errors : List String
  progress : List (String × JVal)
  metadata : List (String × JVal)
  deriving Repr, DecidableEq

/-- Encoding of the `files` field inside `to_dict`: a JSON array of
objects with keys `path` and `content`. -/
def encodeFiles (files : List FileData) : List JVal :=
  files.map fun f => JVal.obj [("path", JVal.str f.path), ("content", JVal.str f.content)]

/-- Encoding of an `Optional[str]` field (`current_agent`). -/
def optStrJ : Option String → JVal
  | some s => JVal.str s
  | none => JVal.null

/-- `AnalysisState.to_dict`: convert state to a dictionary for storage,
field for field as in the source. -/
def AnalysisState.to_dict (s : AnalysisState) : JVal :=
  JVal.obj
    [("session_id", JVal.str s.session_id),
     ("project_id", JVal.int s.project_id),
     ("files", JVal.arr (encodeFiles s.files)),
     ("parsed_elements", JVal.obj s.parsed_elements),
     ("agent_outputs", JVal.obj s.agent_outputs),
     ("current_agent", optStrJ s.current_agent),
     ("errors", JVal.arr (s.errors.map JVal.str)),
     ("progress", JVal.obj s.progress),
     ("metadata", JVal.obj s.metadata)]

/-- Decoder for one serialized file entry. -/
def decodeFile : JVal → Option FileData
  | JVal.obj d =>
      match dictGet d "path", dictGet d "content" with
      | some (JVal.str p), some (JVal.str c) => some ⟨p, c⟩
      | _, _ => none
  | _ => none

/-- Decoder for the serialized `files` array. -/
def decodeFiles : List JVal → Option (List FileData)
  | [] => some []
  | j :: rest =>
      match decodeFile j, decodeFiles rest with
      | some f, some fs => some (f :: fs)
      | _, _ => none

/-- Decoder for a serialized list of strings (the `errors` field). -/
def decodeStrList : List JVal → Option (List String)
  | [] => some []
  | JVal.str s :: rest =>
      match decodeStrList rest with
      | some ss => some (s :: ss)
      | none => none
  | _ => none

/-- Decoder for a serialized `Optional[str]` (the `current_agent` field). -/
def decodeOptStr : JVal → Option (Option String)
  | JVal.null => some none
  | JVal.str s => some (some s)
  | _ => none

/-- Modelled from the spec: the source has no deserializer for
`AnalysisState` (consumers of the cached dictionary only read single
keys), but §4.1 requires reconstruction from the transport-neutral
structure such that serialize→deserialize is lossless; this is that
reconstruction, reading back exactly the keys `to_dict` writes. -/
def AnalysisState.from_dict (j : JVal) : Option AnalysisState :=
  match j with
  | JVal.obj d =>
      match dictGet d "session_id", dictGet d "project_id", dictGet d "files",
            dictGet d "parsed_elements", dictGet d "agent_outputs",
            dictGet d "current_agent", dictGet d "errors",
            dictGet d "progress", dictGet d "metadata" with
      | some (JVal.str sid), some (JVal.int pid), some (JVal.arr fs),
        some (JVal.obj pe), some (JVal.obj ao), some ca,
        some (JVal.arr errs), some (JVal.obj prog), some (JVal.obj meta) =>
          match decodeFiles fs, decodeOptStr ca, decodeStrList errs with
          | some files, some cag, some errors =>
              some ⟨sid, pid, files, pe, ao, cag, errors, prog, meta⟩
          | _, _, _ => none
      | _, _, _, _, _, _, _, _, _ => none
  | _ => none

theorem decodeFiles_encodeFiles (fs : List FileData) :
    decodeFiles (encodeFiles fs) = some fs := by
  induction fs with
  | nil => rfl
  | cons f rest ih =>
      simp only [encodeFiles, List.map] at ih ⊢
      simp [decodeFiles, decodeFile, dictGet, ih]

theorem decodeStrList_map (ss : List String) :
    decodeStrList (ss.map JVal.str) = some ss := by
  induction ss with
  | nil => rfl
  | cons s rest ih => simp [decodeStrList, ih]

theorem decodeOptStr_optStrJ (o : Option String) :
    decodeOptStr (optStrJ o) = some o := by
  cases o <;> rfl

theorem dictGet_dictSet_self {α : Type} (d : List (String × α)) (k : String) (v : α) :
    dictGet (dictSet d k v) k = some v := by
  induction d with
  | nil => simp [dictSet, dictGet]
  | cons p rest ih =>
      obtain ⟨k', v'⟩ := p
      by_cases h : k' = k <;> simp [dictSet, dictGet, h, ih]

theorem dictGet_dictSet_ne {α : Type} (d : List (String × α)) (k q : String) (v : α)
    (h : k ≠ q) : dictGet (dictSet d k v) q = dictGet d q := by
  induction d with
  | nil => simp [dictSet, dictGet, h]
  | cons p rest ih =>
      obtain ⟨k', v'⟩ := p
      by_cases h' : k' = k
      · subst h'; simp [dictSet, dictGet, h]
      · simp [dictSet, dictGet, h', ih]

theorem mem_dictSet {α : Type} (d : List (String × α)) (k : String) (v : α)
    (p : String × α) (hp : p ∈ dictSet d k v) : p = (k, v) ∨ p ∈ d := by
  induction d with
  | nil => simpa [dictSet] using hp
  | cons q rest ih =>
      obtain ⟨k', v'⟩ := q
      by_cases h : k' = k
      · subst h
        simp only [dictSet, eq_self_iff_true, if_true, List.mem_cons] at hp
        rcases hp with h1 | h2
        · exact Or.inl h1
        · exact Or.inr (List.mem_cons_of_mem _ h2)
      · simp only [dictSet, if_neg h, List.mem_cons] at hp
        rcases hp with h1 | h2
        · exact Or.inr (h1 ▸ List.mem_cons_self _ _)
        · rcases ih h2 with h3 | h4
          · exact Or.inl h3
          · exact Or.inr (List.mem_cons_of_mem _ h4)

/-- C8: deserializing the serialized form of any session state
reconstructs a state equal to the original in every field. -/
theorem c8_serialize_roundtrip (s : AnalysisState) :
    AnalysisState.from_dict s.to_dict = some s := by
  simp [AnalysisState.to_dict, AnalysisState.from_dict, dictGet,
        decodeFiles_encodeFiles, decodeStrList_map, decodeOptStr_optStrJ]

/-- Python truthiness of a JSON-like value (`if value:`). -/
def truthy : JVal → Bool
  | JVal.null => false
  | JVal.bool b => b
  | JVal.int n => n != 0
  | JVal.str s => !(s = "")
  | JVal.arr l => !l.isEmpty
  | JVal.obj l => !l.isEmpty

/-- Outcome of one call to the parser collaborator
(`php_parser.parse_php_file` / `parse_js_file`): either structured
elements or a raised exception carrying a message. -/
inductive ParseOutcome where
  | ok : JVal → ParseOutcome
  | raised : String → ParseOutcome
  deriving Repr

/-- Outcome of one call to the documenter stage collaborator
(`documenter.analyze`): a result, a raised exception, or an await that
never returns (the wedged-stage scenario of §5 of the spec). -/
inductive DocOutcome where
  | ok : JVal → DocOutcome
  | raised : String → DocOutcome
  | hang : DocOutcome
  deriving Repr

/-- External collaborators of one pipeline run, threaded explicitly:
the parser, the documenter stage, and the wall clock
(`datetime.utcnow().isoformat()`). -/
structure Env where
  parsePhpFile : String → String → ParseOutcome
  parseJsFile : String → String → ParseOutcome
  documenterAnalyze : List (String × JVal) → DocOutcome
  now : String

/-- One operation issued to the durable store collaborator.  The
`DatabaseManager` methods `update_session_status` and
`store_agent_output` are called by the orchestrator but not defined
under the Python sources; they are modelled from the spec's durable
store interface (`updateStatus(id, status, errorMessage?)`,
`storeStageOutput(subjectId, stageName, outputKind, payload)`) as
always-succeeding writes recorded in a trace. -/
inductive DbOp where
  | updateStatus : String → String → Option String → DbOp
  | storeOutput : Int → String → String → JVal → DbOp
  deriving Repr, DecidableEq

/-- Body of the per-file loop of `_parse_code`: given the file and its
index, update the accumulated parsed elements, error list, and the
`files_processed` counter.  A raised parse exception is caught, an
error string is appended, and `files_processed` is not advanced for
that file (the assignment sits inside the `try`). -/
def parseFilesStep (env : Env) (f : FileData) (i : Nat)
    (pe : List (String × JVal)) (errs : List String) (fp : Nat) :
    List (String × JVal) × List String × Nat :=
  if strEndsWith f.path ".php" then
    match env.parsePhpFile f.content f.path with
    | ParseOutcome.ok v => (dictSet pe f.path v, errs, i + 1)
    | ParseOutcome.raised e =>
        (pe, errs ++ ["Parse error in " ++ f.path ++ ": " ++ e], fp)
  else if strEndsWith f.path ".js" || strEndsWith f.path ".vue" then
    match env.parseJsFile f.content f.path with
    | ParseOutcome.ok v => (dictSet pe f.path v, errs, i + 1)
    | ParseOutcome.raised e =>
        (pe, errs ++ ["Parse error in " ++ f.path ++ ": " ++ e], fp)
  else
    (pe, errs, i + 1)

/-- The `enumerate(state.files)` loop of `_parse_code`. -/
def parseFiles (env : Env) :
    List FileData → Nat → List (String × JVal) × List String × Nat →
    List (String × JVal) × List String × Nat
  | [], _, acc => acc
  | f :: rest, i, (pe, errs, fp) =>
      parseFiles env rest (i + 1) (parseFilesStep env f i pe errs fp)

/-- `AgentOrchestrator._parse_code`: extract structural elements from
every uploaded file; per-file failures append to `errors` and the
stage still finishes with its progress marker at `completed`. -/
def parseCode (env : Env) (s : AnalysisState) : AnalysisState :=
  let s1 := { s with
    current_agent := some "parser",
    progress := dictSet s.progress "parsing"
      (JVal.obj [("status", JVal.str "started"), ("files_processed", JVal.int 0)]) }
  let r := parseFiles env s1.files 0 ([], s1.errors, 0)
  { s1 with
    parsed_elements := r.1,
    errors := r.2.1,
    progress := dictSet s1.progress "parsing"
      (JVal.obj [("status", JVal.str "completed"),
                 ("files_processed", JVal.int (r.2.2 : Int))]) }

/-- The `agents_config` mapping read from session metadata
(`state.metadata.get("agents_config", {})`).  `run_analysis` always
stores an object under this key, so the non-object fallback is
unreachable for states it creates. -/
def agentsConfigOf (meta : List (String × JVal)) : List (String × JVal) :=
  match dictGet meta "agents_config" with
  | some (JVal.obj c) => c
  | _ => []

/-- `AgentOrchestrator._route_to_agents`: record which agents will run;
with an empty config the default is every registered agent, and only
the documenter is registered in the source. -/
def routeToAgents (s : AnalysisState) : AnalysisState :=
  let s1 := { s with
    current_agent := some "router",
    progress := dictSet s.progress "routing" (JVal.obj [("status", JVal.str "started")]) }
  let cfg := agentsConfigOf s1.metadata
  let agentsToRun : List String := if cfg.isEmpty then ["documenter"] else cfg.map Prod.fst
  { s1 with
    progress := dictSet s1.progress "routing"
      (JVal.obj [("status", JVal.str "completed"),
                 ("agents_to_run", JVal.arr (agentsToRun.map JVal.str))]) }

/-- The skip guard of `_run_documenter`:
`state.metadata.get("agents_config", {}).get("documenter", True)`
under Python truthiness. -/
def documenterEnabled (s : AnalysisState) : Bool :=
  match dictGet (agentsConfigOf s.metadata) "documenter" with
  | some v => truthy v
  | none => true

/-- `AgentOrchestrator._run_documenter`: skip when disabled; otherwise
mark the stage started, invoke the stage collaborator, and either
record its output and mark the stage completed, absorb a raised
exception into `errors`, or (if the await never returns) never return
— modelled as `none`. -/
def runDocumenter (env : Env) (s : AnalysisState) : Option AnalysisState :=
  if !documenterEnabled s then some s
  else
    let s1 := { s with
      current_agent := some "documenter",
      progress := dictSet s.progress "documenter" (JVal.obj [("status", JVal.str "started")]) }
    match env.documenterAnalyze s1.parsed_elements with
    | DocOutcome.ok results =>
        some { s1 with
          agent_outputs := dictSet s1.agent_outputs "documenter" results,
          progress := dictSet s1.progress "documenter"
            (JVal.obj [("status", JVal.str "completed")]) }
    | DocOutcome.raised e =>
        some { s1 with errors := s1.errors ++ ["Documenter agent failed: " ++ e] }
    | DocOutcome.hang => none

/-- The `aggregated_results` dictionary built by `_collect_results`. -/
def aggOf (env : Env) (s : AnalysisState) : JVal :=
  JVal.obj
    [("session_id", JVal.str s.session_id),
     ("project_id", JVal.int s.project_id),
     ("timestamp", JVal.str env.now),
     ("agents_run", JVal.arr ((s.agent_outputs.map Prod.fst).map JVal.str)),
     ("results", JVal.obj s.agent_outputs),
     ("metadata", JVal.obj s.metadata),
     ("errors", JVal.arr (s.errors.map JVal.str))]

/-- `AgentOrchestrator._collect_results`: aggregate all agent outputs
into an `aggregated` entry of `agent_outputs`. -/
def collectResults (env : Env) (s : AnalysisState) : AnalysisState :=
  let s1 := { s with
    current_agent := some "collector",
    progress := dictSet s.progress "collection" (JVal.obj [("status", JVal.str "started")]) }
  { s1 with
    agent_outputs := dictSet s1.agent_outputs "aggregated" (aggOf env s1),
    progress := dictSet s1.progress "collection" (JVal.obj [("status", JVal.str "completed")]) }

/-- `AgentOrchestrator._get_output_type`. -/
def getOutputType (agentType : String) : String :=
  if agentType = "documenter" then "documentation"
  else if agentType = "tester" then "tests"
  else if agentType = "security_auditor" then "security_report"
  else if agentType = "performance_optimizer" then "performance_report"
  else "other"

/-- `AgentOrchestrator._store_results`: write every non-aggregated
agent output to the durable store (spec-modelled writes). -/
def storeResults (s : AnalysisState) : AnalysisState × List DbOp :=
  let s1 := { s with
    current_agent := some "storer",
    progress := dictSet s.progress "storage" (JVal.obj [("status", JVal.str "started")]) }
  let ops := (s1.agent_outputs.filter (fun p => p.1 != "aggregated")).map
    (fun p => DbOp.storeOutput s1.project_id p.1 (getOutputType p.1) p.2)
  ({ s1 with
      progress := dictSet s1.progress "storage" (JVal.obj [("status", JVal.str "completed")]) },
   ops)

/-- `AgentOrchestrator._handle_errors`: if any errors were recorded,
mark the session failed in the durable store with the joined error
summary. -/
def handleErrors (s : AnalysisState) : AnalysisState × List DbOp :=
  let s1 := { s with
    current_agent := some "error_handler",
    progress := dictSet s.progress "error_handling"
      (JVal.obj [("status", JVal.str "started")]) }
  let ops := if s1.errors.isEmpty then []
    else [DbOp.updateStatus s1.session_id "failed"
            (some (String.intercalate "; " s1.errors))]
  ({ s1 with
      progress := dictSet s1.progress "error_handling"
        (JVal.obj [("status", JVal.str "completed")]) },
   ops)

/-- `AgentOrchestrator._should_continue`: route to the error branch
whenever any error has accumulated. -/
def shouldContinue (s : AnalysisState) : String :=
  if s.errors.isEmpty then "continue" else "error"

/-- The compiled LangGraph workflow of `_build_workflow`, driven by the
conditional edges after `parse_code` (`continue` to routing, `error`
to error handling), then the linear chain documenter → collect → store.
The source also registers a duplicate unconditional edge
`parse_code → route_to_agents`; the conditional branch is the routing
rule the spec describes and is what is embedded here.  `none` means
the run never returns (a stage hung). -/
def runWorkflow (env : Env) (s : AnalysisState) : Option (AnalysisState × List DbOp) :=
  let s1 := parseCode env s
  if shouldContinue s1 = "error" then
    some (handleErrors s1)
  else
    let s2 := routeToAgents s1
    match runDocumenter env s2 with
    | none => none
    | some s3 =>
        let s4 := collectResults env s3
        let r := storeResults s4
        some (r.1, r.2)

/-- A cell of the in-memory `RedisClient` store.  `set` always stores
strings: `json.dumps(value)` for dict/list values and `str(value)` for
everything else.  The Python standard library pair
`json.dumps`/`json.loads` is modelled exactly: a cell produced by
`json.dumps` remembers the value it round-trips to. -/
inductive Cell where
  | jsonOf : JVal → Cell
  | strOf : String → Cell
  deriving Repr, DecidableEq

/-- Partial model of `json.loads` on the plain strings `str(value)`
can produce for scalar values: JSON literals and integers parse,
anything else raises `JSONDecodeError` (modelled as `none`). -/
def tryLoads (s : String) : Option JVal :=
  if s = "null" then some JVal.null
  else if s = "true" then some (JVal.bool true)
  else if s = "false" then some (JVal.bool false)
  else
    match s.toInt? with
    | some n => some (JVal.int n)
    | none => none

/-- Python `str(value)` for the scalar values that reach the non-JSON
branch of `RedisClient.set` (dicts and lists never do). -/
def pyStr : JVal → String
  | JVal.null => "None"
  | JVal.bool true => "True"
  | JVal.bool false => "False"
  | JVal.int n => toString n
  | JVal.str s => s
  | JVal.arr _ => ""
  | JVal.obj _ => ""

/-- Whether a value takes the `isinstance(value, (dict, list))` branch
of `RedisClient.set`. -/
def isJsonContainer : JVal → Bool
  | JVal.obj _ => true
  | JVal.arr _ => true
  | _ => false

/-- `RedisClient.set`: JSON-encode dict/list values, stringify the
rest; returns `True` on success. -/
def redisSet (storage : List (String × Cell)) (key : String) (value : JVal) :
    List (String × Cell) × Bool :=
  if isJsonContainer value then (dictSet storage key (Cell.jsonOf value), true)
  else (dictSet storage key (Cell.strOf (pyStr value)), true)

/-- `RedisClient.get`: look the key up, try to parse the stored string
as JSON, and fall back to returning the raw string. -/
def redisGet (storage : List (String × Cell)) (key : String) : Option JVal :=
  match dictGet storage key with
  | none => none
  | some (Cell.jsonOf v) => some v
  | some (Cell.strOf s) =>
      match tryLoads s with
      | some v => some v
      | none => some (JVal.str s)

/-- `RedisClient.delete`: remove the key when present; returns `True`
in either case. -/
def redisDelete (storage : List (String × Cell)) (key : String) :
    List (String × Cell) × Bool :=
  (dictDel storage key, true)

/-- The orchestrator's mutable registry state: the in-process
`active_sessions` map and the shared cache contents. -/
structure Orch where
  active_sessions : List (String × AnalysisState)
  redis : List (String × Cell)

/-- The registration step of `run_analysis`
(`self.active_sessions[session_id] = state`): a plain dict assignment
with no duplicate check, so an existing entry for the id is replaced. -/
def registerSession (active : List (String × AnalysisState)) (session_id : String)
    (st : AnalysisState) : List (String × AnalysisState) :=
  dictSet active session_id st

/-- The fresh `AnalysisState` built at the top of `run_analysis`. -/
def initialState (env : Env) (session_id : String) (project_id : Int)
    (files : List FileData) (agentsConfig : List (String × JVal))
    (model tone : String) : AnalysisState :=
  { session_id := session_id,
    project_id := project_id,
    files := files,
    parsed_elements := [],
    agent_outputs := [],
    current_agent := none,
    errors := [],
    progress := [],
    metadata := [("model", JVal.str model), ("tone", JVal.str tone),
                 ("agents_config", JVal.obj agentsConfig),
                 ("started_at", JVal.str env.now)] }

/-- Result of one `run_analysis` call: the returned
`result.agent_outputs`, or a run that never returns because a stage
hung. -/
inductive RunResult where
  | ok : List (String × JVal) → RunResult
  | hung : RunResult
  deriving Repr, DecidableEq

/-- `AgentOrchestrator.run_analysis`: mark the session in progress in
the durable store, register it in memory and in the cache, drive the
workflow, then unconditionally mark the session completed and retire
it.  Returns the run result, the orchestrator state left behind, and
the trace of durable-store operations in issue order. -/
def runAnalysis (env : Env) (orch : Orch) (session_id : String) (project_id : Int)
    (files : List FileData) (agentsConfig : List (String × JVal))
    (model tone : String) : RunResult × Orch × List DbOp :=
  let ops0 := [DbOp.updateStatus session_id "in_progress" none]
  let st := initialState env session_id project_id files agentsConfig model tone
  let orch1 : Orch :=
    { active_sessions := registerSession orch.active_sessions session_id st,
      redis := (redisSet orch.redis ("session:" ++ session_id) st.to_dict).1 }
  match runWorkflow env st with
  | none => (RunResult.hung, orch1, ops0)
  | some (fin, wfOps) =>
      let orch2 : Orch :=
        { active_sessions := dictDel orch1.active_sessions session_id,
          redis := (redisDelete orch1.redis ("session:" ++ session_id)).1 }
      (RunResult.ok fin.agent_outputs, orch2,
       ops0 ++ wfOps ++ [DbOp.updateStatus session_id "completed" none])

/-- The three lookup tiers of `get_session_status`. -/
inductive Tier where
  | memory : Tier
  | cache : Tier
  | store : Tier
  deriving Repr, DecidableEq

/-- `d.get(k)` where Python's default `None` becomes `JVal.null`. -/
def jget (d : List (String × JVal)) (k : String) : JVal :=
  match dictGet d k with
  | some v => v
  | none => JVal.null

/-- The view `get_session_status` builds from an in-memory session. -/
def memView (session_id : String) (st : AnalysisState) : JVal :=
  JVal.obj
    [("session_id", JVal.str session_id),
     ("status", JVal.str "in_progress"),
     ("current_agent", optStrJ st.current_agent),
     ("progress", JVal.obj st.progress),
     ("errors", JVal.arr (st.errors.map JVal.str))]

/-- The view `get_session_status` builds from a cached dictionary.
Reachable cache entries under `session:` keys are objects (only
`state.to_dict()` is ever stored there); the non-object fallback
stands for the `.get` calls on them. -/
def cacheView (session_id : String) (cached : JVal) : JVal :=
  match cached with
  | JVal.obj d =>
      JVal.obj
        [("session_id", JVal.str session_id),
         ("status", JVal.str "cached"),
         ("current_agent", jget d "current_agent"),
         ("progress", jget d "progress"),
         ("errors", jget d "errors")]
  | _ => JVal.null

/-- `AgentOrchestrator.get_session_status`: consult the in-process
map, then the shared cache, then the durable store, returning the
first hit.  `DatabaseManager.get_analysis_session` is called but not
defined under the Python sources; it is modelled from the spec's
`getSession(id)` as a lookup in the durable store's session map.  The
second component records which tiers were consulted, in order. -/
def getSessionStatus (active : List (String × AnalysisState))
    (redis : List (String × Cell)) (db : List (String × JVal))
    (session_id : String) : Option JVal × List Tier :=
  match dictGet active session_id with
  | some st => (some (memView session_id st), [Tier.memory])
  | none =>
      match redisGet redis ("session:" ++ session_id) with
      | some v =>
          if truthy v then
            (some (cacheView session_id v), [Tier.memory, Tier.cache])
          else
            (dictGet db session_id, [Tier.memory, Tier.cache, Tier.store])
      | none => (dictGet db session_id, [Tier.memory, Tier.cache, Tier.store])

/-- The slice of `AgentConfig` that `_call_llm` reads. -/
structure AgentConfig where
  model : String
  tone : String
  deriving Repr, DecidableEq

/-- The per-agent bookkeeping fields of `BaseAgent`: activity flag,
whether the LLM handle was initialized, and the stage counters. -/
structure AgentStats where
  is_active : Bool
  has_llm : Bool
  last_run : Option String
  total_runs : Nat
  total_tokens : Nat
  deriving Repr, DecidableEq

/-- A chat message, by role, with its content. -/
inductive Msg where
  | system : String → Msg
  | human : String → Msg
  | ai : String → Msg
  deriving Repr, DecidableEq

/-- Content of a message. -/
def msgContent : Msg → String
  | Msg.system s => s
  | Msg.human s => s
  | Msg.ai s => s

/-- `isinstance(msg, SystemMessage)`. -/
def isSystemMsg : Msg → Bool
  | Msg.system _ => true
  | _ => false

/-- Outcome of the `llm.ainvoke` round trip: the response content, or a
raised exception carrying a message. -/
inductive LlmOutcome where
  | ok : String → LlmOutcome
  | raised : String → LlmOutcome

/-- External collaborators of one `_call_llm` invocation: the LLM
round trip, the subclass's `process_response` (which may raise), the
subclass's `get_system_prompt` for the configured tone, the wall
clock, and the elapsed wall-clock time in abstract units (the source
measures a float of seconds). -/
structure AgentEnv where
  llmInvoke : LlmOutcome
  processResponse : String → Except String JVal
  systemPrompt : String
  now : String
  elapsed : Nat

/-- The `AgentResult` dataclass of `base_agent.py`. -/
structure AgentResult where
  success : Bool
  data : JVal
  metadata : List (String × JVal)
  errors : List String
  processing_time : Nat
  tokens_used : Option Nat
  deriving Repr, DecidableEq

/-- `BaseAgent._estimate_tokens`: one token per four characters of the
conversation. -/
def estimateTokens (messages : List Msg) (response : String) : Nat :=
  ((messages.map fun m => (msgContent m).length).sum + response.length) / 4

/-- The failed `AgentResult` built in the `except` branch of
`_call_llm`. -/
def failResult (cfg : AgentConfig) (env : AgentEnv) (e : String) : AgentResult :=
  { success := false,
    data := JVal.obj [],
    metadata := [("model", JVal.str cfg.model), ("tone", JVal.str cfg.tone),
                 ("processing_time", JVal.int (env.elapsed : Int)),
                 ("error", JVal.str e)],
    errors := [e],
    processing_time := env.elapsed,
    tokens_used := none }

/-- `BaseAgent._call_llm`: prepend the system prompt when absent, call
the LLM, process the response, and only then update the stage's
bookkeeping counters; any raised exception (inactive agent, LLM fault,
`process_response` fault) is converted into a failed result, skipping
the counter update.  Returns the result together with the agent's
bookkeeping state after the invocation. -/
def callLlm (env : AgentEnv) (cfg : AgentConfig) (stats : AgentStats)
    (messages : List Msg) : AgentResult × AgentStats :=
  if !(stats.is_active && stats.has_llm) then
    (failResult cfg env "Agent is not active or LLM not initialized", stats)
  else
    let messages1 :=
      if messages.any isSystemMsg then messages
      else Msg.system env.systemPrompt :: messages
    match env.llmInvoke with
    | LlmOutcome.raised e => (failResult cfg env e, stats)
    | LlmOutcome.ok content =>
        match env.processResponse content with
        | Except.error e => (failResult cfg env e, stats)
        | Except.ok processedData =>
            let est := estimateTokens messages1 content
            ({ success := true,
               data := processedData,
               metadata := [("model", JVal.str cfg.model), ("tone", JVal.str cfg.tone),
                            ("processing_time", JVal.int (env.elapsed : Int)),
                            ("estimated_tokens", JVal.int (est : Int))],
               errors := [],
               processing_time := env.elapsed,
               tokens_used := some est },
             { stats with
                last_run := some env.now,
                total_runs := stats.total_runs + 1,
                total_tokens := stats.total_tokens + est })

/-- The progress record of a completed stage. -/
def stageCompletedObj : JVal := JVal.obj [("status", JVal.str "completed")]

/-- The progress record of a stage that was started and never
completed. -/
def stageStartedObj : JVal := JVal.obj [("status", JVal.str "started")]

theorem parseCode_agent_outputs (env : Env) (s : AnalysisState) :
    (parseCode env s).agent_outputs = s.agent_outputs := by
  simp [parseCode]

theorem parseCode_metadata (env : Env) (s : AnalysisState) :
    (parseCode env s).metadata = s.metadata := by
  simp [parseCode]

theorem parseCode_session_id (env : Env) (s : AnalysisState) :
    (parseCode env s).session_id = s.session_id := by
  simp [parseCode]

theorem parseCode_progress_other (env : Env) (s : AnalysisState) (k : String)
    (h : k ≠ "parsing") : dictGet (parseCode env s).progress k = dictGet s.progress k := by
  simp only [parseCode]
  rw [dictGet_dictSet_ne _ _ _ _ (fun he => h he.symm),
      dictGet_dictSet_ne _ _ _ _ (fun he => h he.symm)]

theorem routeToAgents_agent_outputs (s : AnalysisState) :
    (routeToAgents s).agent_outputs = s.agent_outputs := by
  simp [routeToAgents]

theorem routeToAgents_errors (s : AnalysisState) :
    (routeToAgents s).errors = s.errors := by
  simp [routeToAgents]

theorem routeToAgents_parsed_elements (s : AnalysisState) :
    (routeToAgents s).parsed_elements = s.parsed_elements := by
  simp [routeToAgents]

theorem routeToAgents_metadata (s : AnalysisState) :
    (routeToAgents s).metadata = s.metadata := by
  simp [routeToAgents]

theorem routeToAgents_progress_other (s : AnalysisState) (k : String)
    (h : k ≠ "routing") : dictGet (routeToAgents s).progress k = dictGet s.progress k := by
  simp only [routeToAgents]
  rw [dictGet_dictSet_ne _ _ _ _ (fun he => h he.symm),
      dictGet_dictSet_ne _ _ _ _ (fun he => h he.symm)]

theorem storeCollect_errors (env : Env) (s : AnalysisState) :
    (storeResults (collectResults env s)).1.errors = s.errors := by
  simp [storeResults, collectResults]

theorem storeCollect_outputs (env : Env) (s : AnalysisState) :
    (storeResults (collectResults env s)).1.agent_outputs
      = dictSet s.agent_outputs "aggregated" (aggOf env s) := by
  simp [storeResults, collectResults]
  rfl

theorem storeCollect_progress_collection (env : Env) (s : AnalysisState) :
    dictGet (storeResults (collectResults env s)).1.progress "collection"
      = some stageCompletedObj := by
  simp only [storeResults, collectResults, stageCompletedObj]
  rw [dictGet_dictSet_ne _ _ _ _ (by decide), dictGet_dictSet_ne _ _ _ _ (by decide),
      dictGet_dictSet_self]

theorem storeCollect_progress_storage (env : Env) (s : AnalysisState) :
    dictGet (storeResults (collectResults env s)).1.progress "storage"
      = some stageCompletedObj := by
  simp only [storeResults, collectResults, stageCompletedObj]
  rw [dictGet_dictSet_self]

theorem storeCollect_progress_other (env : Env) (s : AnalysisState) (k : String)
    (h1 : k ≠ "collection") (h2 : k ≠ "storage") :
    dictGet (storeResults (collectResults env s)).1.progress k = dictGet s.progress k := by
  simp only [storeResults, collectResults]
  rw [dictGet_dictSet_ne _ _ _ _ (fun he => h2 he.symm),
      dictGet_dictSet_ne _ _ _ _ (fun he => h2 he.symm),
      dictGet_dictSet_ne _ _ _ _ (fun he => h1 he.symm),
      dictGet_dictSet_ne _ _ _ _ (fun he => h1 he.symm)]

/-- A run environment whose parse of any PHP file raises. -/
def envFailParse : Env :=
  { parsePhpFile := fun _ _ => ParseOutcome.raised "boom",
    parseJsFile := fun _ _ => ParseOutcome.ok (JVal.obj []),
    documenterAnalyze := fun _ => DocOutcome.ok (JVal.obj []),
    now := "t0" }

/-- A run environment where every collaborator succeeds. -/
def envOk : Env :=
  { parsePhpFile := fun _ _ => ParseOutcome.ok (JVal.obj [("classes", JVal.arr [])]),
    parseJsFile := fun _ _ => ParseOutcome.ok (JVal.obj []),
    documenterAnalyze := fun _ => DocOutcome.ok (JVal.str "docs"),
    now := "t0" }

/-- A run environment whose documenter stage raises. -/
def envDocFail : Env :=
  { envOk with documenterAnalyze := fun _ => DocOutcome.raised "llm down" }

/-- A run environment whose documenter stage never returns. -/
def envDocHang : Env :=
  { envOk with documenterAnalyze := fun _ => DocOutcome.hang }

theorem runDocumenter_skip (env : Env) (s : AnalysisState)
    (h : documenterEnabled s = false) : runDocumenter env s = some s := by
  simp [runDocumenter, h]

theorem runDocumenter_ok (env : Env) (s : AnalysisState) (results : JVal)
    (he : documenterEnabled s = true)
    (hd : env.documenterAnalyze s.parsed_elements = DocOutcome.ok results) :
    runDocumenter env s = some { s with
      current_agent := some "documenter",
      agent_outputs := dictSet s.agent_outputs "documenter" results,
      progress := dictSet (dictSet s.progress "documenter" stageStartedObj)
        "documenter" stageCompletedObj } := by
  simp [runDocumenter, he, hd, stageStartedObj, stageCompletedObj]

theorem runDocumenter_raised (env : Env) (s : AnalysisState) (msg : String)
    (he : documenterEnabled s = true)
    (hd : env.documenterAnalyze s.parsed_elements = DocOutcome.raised msg) :
    runDocumenter env s = some { s with
      current_agent := some "documenter",
      errors := s.errors ++ ["Documenter agent failed: " ++ msg],
      progress := dictSet s.progress "documenter" stageStartedObj } := by
  simp [runDocumenter, he, hd, stageStartedObj]

theorem runDocumenter_hang (env : Env) (s : AnalysisState)
    (he : documenterEnabled s = true)
    (hd : env.documenterAnalyze s.parsed_elements = DocOutcome.hang) :
    runDocumenter env s = none := by
  simp [runDocumenter, he, hd]

theorem handleErrors_agent_outputs (s : AnalysisState) :
    (handleErrors s).1.agent_outputs = s.agent_outputs := by
  simp [handleErrors]

theorem handleErrors_errors (s : AnalysisState) :
    (handleErrors s).1.errors = s.errors := by
  simp [handleErrors]

theorem handleErrors_progress_self (s : AnalysisState) :
    dictGet (handleErrors s).1.progress "error_handling" = some stageCompletedObj := by
  simp only [handleErrors, stageCompletedObj]
  rw [dictGet_dictSet_self]

theorem handleErrors_progress_other (s : AnalysisState) (k : String)
    (h : k ≠ "error_handling") :
    dictGet (handleErrors s).1.progress k = dictGet s.progress k := by
  simp only [handleErrors]
  rw [dictGet_dictSet_ne _ _ _ _ (fun he => h he.symm),
      dictGet_dictSet_ne _ _ _ _ (fun he => h he.symm)]

theorem handleErrors_ops (s : AnalysisState) (h : s.errors ≠ []) :
    (handleErrors s).2 = [DbOp.updateStatus s.session_id "failed"
      (some (String.intercalate "; " s.errors))] := by
  simp [handleErrors, h]

/-- C1 (amended): a session whose parsing stage records any per-file
parse failure is diverted by the transition guard into the
error-handling branch — the guard answers `error` whenever `errors` is
nonempty — so routing and the analysis stages run only when parsing
recorded no errors at all. -/
theorem c1_parse_warning_diverts (env : Env) (s : AnalysisState)
    (herr : (parseCode env s).errors ≠ [])
    (hrout : dictGet s.progress "routing" = none) :
    shouldContinue (parseCode env s) = "error"
  ∧ runWorkflow env s = some (handleErrors (parseCode env s))
  ∧ ((runWorkflow env s).map fun r => dictGet r.1.progress "routing") = some none
  ∧ ((runWorkflow env s).map fun r => dictGet r.1.progress "error_handling")
      = some (some stageCompletedObj) := by
  have hsc : shouldContinue (parseCode env s) = "error" := by
    simp [shouldContinue, herr]
  have hw : runWorkflow env s = some (handleErrors (parseCode env s)) := by
    simp only [runWorkflow]
    rw [hsc]
    simp
  refine ⟨hsc, hw, ?_, ?_⟩
  · rw [hw]
    rw [Option.map_some']
    rw [handleErrors_progress_other _ _ (by decide),
        parseCode_progress_other _ _ _ (by decide), hrout]
  · rw [hw]
    rw [Option.map_some']
    rw [handleErrors_progress_self]

/-- The concrete session of the C1 counterexample: one PHP file whose
parse raises, so exactly one per-file warning is recorded and no
overall fatal error occurs. -/
def c1init : AnalysisState := initialState envFailParse "s1" 1 [⟨"a.php", "x"⟩] [] "m" "t"

/-- C1 (counterexample): with only a per-file parse failure recorded,
the guard answers `error`, the final state has no routing progress at
all, and the error-handling stage ran — the pipeline did not
transition to routing. -/
theorem c1_counterexample :
    shouldContinue (parseCode envFailParse c1init) = "error"
  ∧ ((runWorkflow envFailParse c1init).map fun r => dictGet r.1.progress "routing")
      = some none
  ∧ ((runWorkflow envFailParse c1init).map fun r => dictGet r.1.progress "error_handling")
      = some (some stageCompletedObj)
  ∧ ((runWorkflow envFailParse c1init).map fun r => r.2)
      = some [DbOp.updateStatus "s1" "failed" (some "Parse error in a.php: boom")] :=
  ⟨rfl, rfl, rfl, rfl⟩

/-- C1 (witness for the amended theorem): the hypotheses hold at the
concrete one-file session and the amended conclusion follows there. -/
theorem c1_witness :
    ((parseCode envFailParse c1init).errors ≠ []
       ∧ dictGet c1init.progress "routing" = none)
  ∧ (shouldContinue (parseCode envFailParse c1init) = "error"
     ∧ runWorkflow envFailParse c1init
         = some (handleErrors (parseCode envFailParse c1init))
     ∧ ((runWorkflow envFailParse c1init).map fun r => dictGet r.1.progress "routing")
         = some none
     ∧ ((runWorkflow envFailParse c1init).map fun r => dictGet r.1.progress "error_handling")
         = some (some stageCompletedObj)) :=
  ⟨⟨by decide, rfl⟩, c1_parse_warning_diverts envFailParse c1init (by decide) rfl⟩

/-- C2 (amended): for every final state of a completed run started
from a fresh session, the exists-iff-completed law holds for the one
analysis agent: `agent_outputs` has a `documenter` entry exactly when
`progress.documenter.status` is `completed`; moreover the only keys
the pipeline ever writes to `agent_outputs` are `documenter` and
`aggregated` (the bookkeeping stages record completed progress with no
companion output, and `aggregated` has no progress marker). -/
theorem c2_documenter_iff (env : Env) (session_id : String) (project_id : Int)
    (files : List FileData) (cfg : List (String × JVal)) (model tone : String)
    (fin : AnalysisState) (ops : List DbOp)
    (h : runWorkflow env (initialState env session_id project_id files cfg model tone)
           = some (fin, ops)) :
    ((dictGet fin.agent_outputs "documenter").isSome
       ↔ dictGet fin.progress "documenter" = some stageCompletedObj)
  ∧ fin.agent_outputs.all (fun p => p.1 == "documenter" || p.1 == "aggregated") = true := by
  have houts1 : (parseCode env (initialState env session_id project_id files cfg
      model tone)).agent_outputs = [] := by
    rw [parseCode_agent_outputs]; rfl
  have hprog1 : dictGet (parseCode env (initialState env session_id project_id files cfg
      model tone)).progress "documenter" = none := by
    rw [parseCode_progress_other _ _ _ (by decide)]; rfl
  simp only [runWorkflow] at h
  by_cases hc :
      shouldContinue (parseCode env (initialState env session_id project_id files cfg
        model tone)) = "error"
  · rw [if_pos hc] at h
    have hfin : fin = (handleErrors (parseCode env (initialState env session_id project_id
        files cfg model tone))).1 := by
      injection h with h'
      exact (congrArg Prod.fst h').symm
    subst hfin
    constructor
    · rw [handleErrors_agent_outputs, houts1,
          handleErrors_progress_other _ _ (by decide), hprog1]
      simp [dictGet]
    · rw [handleErrors_agent_outputs, houts1]
      rfl
  · rw [if_neg hc] at h
    have houts2 : (routeToAgents (parseCode env (initialState env session_id project_id
        files cfg model tone))).agent_outputs = [] := by
      rw [routeToAgents_agent_outputs, houts1]
    have hprog2 : dictGet (routeToAgents (parseCode env (initialState env session_id
        project_id files cfg model tone))).progress "documenter" = none := by
      rw [routeToAgents_progress_other _ _ (by decide), hprog1]
    cases hd : runDocumenter env (routeToAgents (parseCode env (initialState env session_id
        project_id files cfg model tone))) with
    | none => rw [hd] at h; cases h
    | some s3 =>
        rw [hd] at h
        have hfin : fin = (storeResults (collectResults env s3)).1 := by
          injection h with h'
          exact (congrArg Prod.fst h').symm
        subst hfin
        have hout3 : dictGet (storeResults (collectResults env s3)).1.agent_outputs
            "documenter" = dictGet s3.agent_outputs "documenter" := by
          rw [storeCollect_outputs, dictGet_dictSet_ne _ _ _ _ (by decide)]
        have hprg3 : dictGet (storeResults (collectResults env s3)).1.progress
            "documenter" = dictGet s3.progress "documenter" := by
          rw [storeCollect_progress_other _ _ _ (by decide) (by decide)]
        cases he : documenterEnabled (routeToAgents (parseCode env (initialState env
            session_id project_id files cfg model tone))) with
        | false =>
            rw [runDocumenter_skip _ _ he] at hd
            injection hd with hd'
            subst hd'
            constructor
            · rw [hout3, hprg3, houts2, hprog2]
              simp [dictGet]
            · rw [storeCollect_outputs, houts2]
              simp [dictSet]
        | true =>
            cases ha : env.documenterAnalyze (routeToAgents (parseCode env (initialState
                env session_id project_id files cfg model tone))).parsed_elements with
            | ok results =>
                rw [runDocumenter_ok _ _ results he ha] at hd
                injection hd with hd'
                subst hd'
                constructor
                · rw [hout3, hprg3]
                  simp only [houts2]
                  rw [dictGet_dictSet_self, dictGet_dictSet_self]
                  simp [dictGet, dictSet]
                · rw [storeCollect_outputs]
                  simp only [houts2]
                  simp [dictSet]
            | raised msg =>
                rw [runDocumenter_raised _ _ msg he ha] at hd
                injection hd with hd'
                subst hd'
                constructor
                · rw [hout3, hprg3]
                  simp only [houts2]
                  rw [dictGet_dictSet_self]
                  simp [dictGet, stageStartedObj, stageCompletedObj]
                · rw [storeCollect_outputs]
                  simp only [houts2]
                  simp [dictSet]
            | hang =>
                rw [runDocumenter_hang _ _ he ha] at hd
                cases hd

/-- The concrete session of the C2 counterexample: one cleanly parsed
file, all stages succeed. -/
def c2init : AnalysisState := initialState envOk "s2" 1 [⟨"a.php", "x"⟩] [] "m" "t"

/-- C2 (counterexample): after a fully successful run, the parsing
stage's progress marker is `completed` yet `agent_outputs` has no
`parsing` entry, and the collector wrote an `aggregated` output that
has no progress marker at all — both directions of the claimed iff
fail at those stage names. -/
theorem c2_counterexample :
    ((runWorkflow envOk c2init).map fun r => dictGet r.1.progress "parsing")
      = some (some (JVal.obj [("status", JVal.str "completed"),
                              ("files_processed", JVal.int 1)]))
  ∧ ((runWorkflow envOk c2init).map fun r => dictGet r.1.agent_outputs "parsing")
      = some none
  ∧ ((runWorkflow envOk c2init).map fun r => (dictGet r.1.agent_outputs "aggregated").isSome)
      = some true
  ∧ ((runWorkflow envOk c2init).map fun r => dictGet r.1.progress "aggregated")
      = some none :=
  ⟨rfl, rfl, rfl, rfl⟩

/-- Final state of the C2 witness run. -/
def c2fin : AnalysisState :=
  match runWorkflow envOk c2init with
  | some r => r.1
  | none => c2init

/-- Store trace of the C2 witness run. -/
def c2ops : List DbOp :=
  match runWorkflow envOk c2init with
  | some r => r.2
  | none => []

/-- C2 (witness for the amended theorem): the amended law holds on the
concrete successful run. -/
theorem c2_witness :
    runWorkflow envOk c2init = some (c2fin, c2ops)
  ∧ (((dictGet c2fin.agent_outputs "documenter").isSome
        ↔ dictGet c2fin.progress "documenter" = some stageCompletedObj)
     ∧ c2fin.agent_outputs.all (fun p => p.1 == "documenter" || p.1 == "aggregated")
         = true) :=
  ⟨rfl, c2_documenter_iff envOk "s2" 1 [⟨"a.php", "x"⟩] [] "m" "t" c2fin c2ops rfl⟩

/-- C3: the run of a session whose parsing fails fatally for the
status claim — one PHP file whose parse raises. -/
def c3run : RunResult × Orch × List DbOp :=
  runAnalysis envFailParse ⟨[], []⟩ "s3" 1 [⟨"a.php", "x"⟩] [] "m" "t"

/-- C3: evaluated at the failing input, the durable-store trace writes
`in_progress`, then `failed` (from the error-handling stage), then
`completed` (from the unconditional final update in `run_analysis`) —
the session status moves backward from `failed` to `completed`. -/
theorem c3_failed_then_completed :
    c3run.2.2 = [DbOp.updateStatus "s3" "in_progress" none,
                 DbOp.updateStatus "s3" "failed" (some "Parse error in a.php: boom"),
                 DbOp.updateStatus "s3" "completed" none] := rfl

/-- C4 (counterexample): registering a second session under an already
registered id does not fail and replaces the first session's
registered state, and a run started on an orchestrator that already
holds the same id proceeds to normal completion — no duplicate-id
error exists. -/
def c4stA : AnalysisState := initialState envOk "s" 1 [] [] "m" "t"

/-- A distinct second state registered under the same id. -/
def c4stB : AnalysisState := { c4stA with project_id := 2 }

theorem c4_counterexample :
    registerSession (registerSession [] "s" c4stA) "s" c4stB = [("s", c4stB)]
  ∧ c4stA ≠ c4stB
  ∧ (runAnalysis envOk ⟨[("s", c4stA)], []⟩ "s" 2 [] [] "m" "t").2.2
      = [DbOp.updateStatus "s" "in_progress" none,
         DbOp.storeOutput 2 "documenter" "documentation" (JVal.str "docs"),
         DbOp.updateStatus "s" "completed" none] :=
  ⟨rfl, by decide, rfl⟩

/-- C4 (amended): `run_analysis` performs no duplicate-session check:
its result and its durable-store trace are independent of whatever the
orchestrator already has registered (a duplicate id runs the full
pipeline exactly like a fresh one), and the registration step silently
overwrites any existing in-process entry for the id. -/
theorem c4_no_duplicate_check (env : Env) (o1 o2 : Orch) (session_id : String)
    (project_id : Int) (files : List FileData) (cfg : List (String × JVal))
    (model tone : String) (active : List (String × AnalysisState)) (st : AnalysisState) :
    (runAnalysis env o1 session_id project_id files cfg model tone).1
      = (runAnalysis env o2 session_id project_id files cfg model tone).1
  ∧ (runAnalysis env o1 session_id project_id files cfg model tone).2.2
      = (runAnalysis env o2 session_id project_id files cfg model tone).2.2
  ∧ dictGet (registerSession active session_id st) session_id = some st := by
  refine ⟨?_, ?_, dictGet_dictSet_self _ _ _⟩ <;>
  · simp only [runAnalysis]
    cases runWorkflow env (initialState env session_id project_id files cfg model tone) with
    | none => rfl
    | some r => rfl

/-- C5 (counterexample): with a documenter stage that never returns,
the run never ends: the only durable-store write is `in_progress` —
the session is never marked `failed` and no `TimeoutExceeded` error is
ever recorded, because `run_analysis` has no runtime ceiling. -/
theorem c5_counterexample :
    (runAnalysis envDocHang ⟨[], []⟩ "s5" 1 [⟨"a.php", "x"⟩] [] "m" "t").1
      = RunResult.hung
  ∧ (runAnalysis envDocHang ⟨[], []⟩ "s5" 1 [⟨"a.php", "x"⟩] [] "m" "t").2.2
      = [DbOp.updateStatus "s5" "in_progress" none] :=
  ⟨rfl, rfl⟩

/-- C5 (amended): the orchestrator bounds nothing: whenever the
enabled documenter stage never returns on a session that parsed
cleanly, the whole run never returns, and the only status ever written
to the durable store is `in_progress` — no `failed` status and no
timeout error of any kind. -/
theorem c5_no_timeout_ceiling (env : Env) (orch : Orch) (session_id : String)
    (project_id : Int) (files : List FileData) (cfg : List (String × JVal))
    (model tone : String)
    (hparse : (parseCode env (initialState env session_id project_id files cfg
       model tone)).errors = [])
    (henabled : documenterEnabled (routeToAgents (parseCode env (initialState env
       session_id project_id files cfg model tone))) = true)
    (hhang : env.documenterAnalyze (routeToAgents (parseCode env (initialState env
       session_id project_id files cfg model tone))).parsed_elements = DocOutcome.hang) :
    (runAnalysis env orch session_id project_id files cfg model tone).1 = RunResult.hung
  ∧ (runAnalysis env orch session_id project_id files cfg model tone).2.2
      = [DbOp.updateStatus session_id "in_progress" none] := by
  have hsc : shouldContinue (parseCode env (initialState env session_id project_id files
      cfg model tone)) = "continue" := by
    simp [shouldContinue, hparse]
  have hw : runWorkflow env (initialState env session_id project_id files cfg model tone)
      = none := by
    simp only [runWorkflow]
    rw [hsc, if_neg (by decide : ¬("continue" : String) = "error"),
        runDocumenter_hang _ _ henabled hhang]
  constructor <;> · simp only [runAnalysis]; rw [hw]

/-- C5 (witness for the amended theorem): the hypotheses hold at a
concrete one-file session with a hanging documenter, and the
conclusion follows there. -/
theorem c5_witness :
    ((parseCode envDocHang (initialState envDocHang "s5" 1 [⟨"a.php", "x"⟩] [] "m" "t")).errors
        = []
     ∧ documenterEnabled (routeToAgents (parseCode envDocHang (initialState envDocHang
         "s5" 1 [⟨"a.php", "x"⟩] [] "m" "t"))) = true
     ∧ envDocHang.documenterAnalyze (routeToAgents (parseCode envDocHang (initialState
         envDocHang "s5" 1 [⟨"a.php", "x"⟩] [] "m" "t"))).parsed_elements = DocOutcome.hang)
  ∧ ((runAnalysis envDocHang ⟨[], []⟩ "s5" 1 [⟨"a.php", "x"⟩] [] "m" "t").1 = RunResult.hung
     ∧ (runAnalysis envDocHang ⟨[], []⟩ "s5" 1 [⟨"a.php", "x"⟩] [] "m" "t").2.2
         = [DbOp.updateStatus "s5" "in_progress" none]) :=
  ⟨⟨rfl, rfl, rfl⟩,
   c5_no_timeout_ceiling envDocHang ⟨[], []⟩ "s5" 1 [⟨"a.php", "x"⟩] [] "m" "t"
     rfl rfl rfl⟩

/-- All cache entries the orchestrator stores under a session key are
nonempty objects (only `state.to_dict()` is ever stored); this
predicate captures that well-formedness for a given id. -/
def cacheWellFormed (redis : List (String × Cell)) (session_id : String) : Bool :=
  match redisGet redis ("session:" ++ session_id) with
  | some (JVal.obj d) => !d.isEmpty
  | some _ => false
  | none => true

/-- C6: a status lookup consults the in-process map, the shared cache
and the durable store in that fixed order and answers from the first
tier holding an entry, without consulting later tiers; only when all
three miss does it answer not-found. -/
theorem c6_tier_order (active : List (String × AnalysisState))
    (redis : List (String × Cell)) (db : List (String × JVal)) (session_id : String)
    (hwf : cacheWellFormed redis session_id = true) :
    ((dictGet active session_id).isSome →
       getSessionStatus active redis db session_id
         = ((dictGet active session_id).map (memView session_id), [Tier.memory]))
  ∧ (dictGet active session_id = none →
       (redisGet redis ("session:" ++ session_id)).isSome →
         getSessionStatus active redis db session_id
           = ((redisGet redis ("session:" ++ session_id)).map (cacheView session_id),
              [Tier.memory, Tier.cache]))
  ∧ (dictGet active session_id = none →
       redisGet redis ("session:" ++ session_id) = none →
         getSessionStatus active redis db session_id
           = (dictGet db session_id, [Tier.memory, Tier.cache, Tier.store]))
  ∧ (dictGet active session_id = none →
       redisGet redis ("session:" ++ session_id) = none →
       dictGet db session_id = none →
         (getSessionStatus active redis db session_id).1 = none) := by
  refine ⟨?_, ?_, ?_, ?_⟩
  · intro hm
    cases hac : dictGet active session_id with
    | none => rw [hac] at hm; cases hm
    | some st => simp [getSessionStatus, hac]
  · intro hm hr
    cases hre : redisGet redis ("session:" ++ session_id) with
    | none => rw [hre] at hr; cases hr
    | some v =>
        have htr : truthy v = true := by
          rw [cacheWellFormed, hre] at hwf
          cases v with
          | obj d => simpa [truthy] using hwf
          | null => cases hwf
          | bool b => cases hwf
          | int n => cases hwf
          | str s => cases hwf
          | arr l => cases hwf
        simp [getSessionStatus, hm, hre, htr]
  · intro hm hr
    simp [getSessionStatus, hm, hr]
  · intro hm hr hd
    simp [getSessionStatus, hm, hr, hd]

/-- The in-memory session of the C6 witness. -/
def c6st : AnalysisState := initialState envOk "s6" 1 [] [] "m" "t"

/-- C6 (witness): with the session registered only in the in-process
map, the lookup answers the memory view and consults only the memory
tier. -/
theorem c6_witness :
    cacheWellFormed [] "s6" = true
  ∧ (dictGet [("s6", c6st)] "s6").isSome = true
  ∧ getSessionStatus [("s6", c6st)] [] [] "s6"
      = (some (memView "s6" c6st), [Tier.memory]) :=
  ⟨rfl, rfl, by
    have h := (c6_tier_order [("s6", c6st)] [] [] "s6" rfl).1 (by rfl)
    simpa [dictGet] using h⟩

/-- The post-state property of the C7 claim: the driver returned (no
fault propagated), the documenter's failure message was recorded in
the session's errors, the stage produced no output, and both
downstream stages (collection, storage) ran to completion. -/
def c7post (msg : String) : Option (AnalysisState × List DbOp) → Prop
  | none => False
  | some r =>
      ("Documenter agent failed: " ++ msg) ∈ r.1.errors
    ∧ dictGet r.1.agent_outputs "documenter" = none
    ∧ dictGet r.1.progress "collection" = some stageCompletedObj
    ∧ dictGet r.1.progress "storage" = some stageCompletedObj

/-- C7: when the enabled documenter stage raises on a session that
parsed cleanly, the driver absorbs the fault: the run still returns,
the failure is recorded in `errors`, the stage is left without an
output, and the downstream collection and storage stages still run to
completion. -/
theorem c7_stage_fault_absorbed (env : Env) (session_id : String) (project_id : Int)
    (files : List FileData) (cfg : List (String × JVal)) (model tone : String)
    (msg : String)
    (hparse : (parseCode env (initialState env session_id project_id files cfg
       model tone)).errors = [])
    (henabled : documenterEnabled (routeToAgents (parseCode env (initialState env
       session_id project_id files cfg model tone))) = true)
    (hdoc : env.documenterAnalyze (routeToAgents (parseCode env (initialState env
       session_id project_id files cfg model tone))).parsed_elements
         = DocOutcome.raised msg) :
    c7post msg (runWorkflow env (initialState env session_id project_id files cfg
      model tone)) := by
  have hsc : shouldContinue (parseCode env (initialState env session_id project_id files
      cfg model tone)) = "continue" := by
    simp [shouldContinue, hparse]
  have houts : (routeToAgents (parseCode env (initialState env session_id project_id files
      cfg model tone))).agent_outputs = [] := by
    rw [routeToAgents_agent_outputs, parseCode_agent_outputs]; rfl
  have hw : runWorkflow env (initialState env session_id project_id files cfg model tone)
      = some (storeResults (collectResults env
          { routeToAgents (parseCode env (initialState env session_id project_id files cfg
              model tone)) with
            current_agent := some "documenter",
            errors := (routeToAgents (parseCode env (initialState env session_id project_id
              files cfg model tone))).errors ++ ["Documenter agent failed: " ++ msg],
            progress := dictSet (routeToAgents (parseCode env (initialState env session_id
              project_id files cfg model tone))).progress "documenter"
              stageStartedObj })) := by
    simp only [runWorkflow]
    rw [hsc, if_neg (by decide : ¬("continue" : String) = "error"),
        runDocumenter_raised _ _ msg henabled hdoc]
  rw [hw]
  simp only [c7post]
  refine ⟨?_, ?_, ?_, ?_⟩
  · rw [storeCollect_errors]
    simp
  · rw [storeCollect_outputs, dictGet_dictSet_ne _ _ _ _ (by decide)]
    simp only [houts]
    rfl
  · rw [storeCollect_progress_collection]
  · rw [storeCollect_progress_storage]

/-- C7 (witness): the hypotheses hold at a concrete one-file session
whose documenter raises, and the conclusion follows there. -/
theorem c7_witness :
    ((parseCode envDocFail (initialState envDocFail "s7" 1 [⟨"a.php", "x"⟩] [] "m" "t")).errors
        = []
     ∧ documenterEnabled (routeToAgents (parseCode envDocFail (initialState envDocFail
         "s7" 1 [⟨"a.php", "x"⟩] [] "m" "t"))) = true
     ∧ envDocFail.documenterAnalyze (routeToAgents (parseCode envDocFail (initialState
         envDocFail "s7" 1 [⟨"a.php", "x"⟩] [] "m" "t"))).parsed_elements
         = DocOutcome.raised "llm down")
  ∧ c7post "llm down" (runWorkflow envDocFail (initialState envDocFail "s7" 1
      [⟨"a.php", "x"⟩] [] "m" "t")) :=
  ⟨⟨rfl, rfl, rfl⟩,
   c7_stage_fault_absorbed envDocFail "s7" 1 [⟨"a.php", "x"⟩] [] "m" "t" "llm down"
     rfl rfl rfl⟩

/-- C9 (amended): the stage bookkeeping counters are updated exactly
when the invocation succeeds: a successful `_call_llm` increments the
invocation count and stamps the last-run time, while a failed one —
inactive agent, LLM fault, or `process_response` fault — leaves both
counters unchanged (the update sits after the calls inside the `try`,
and the `except` branch returns without touching them). -/
theorem c9_counters_success_only (env : AgentEnv) (cfg : AgentConfig)
    (stats : AgentStats) (messages : List Msg) :
    ((callLlm env cfg stats messages).2.total_runs
       = if (callLlm env cfg stats messages).1.success then stats.total_runs + 1
         else stats.total_runs)
  ∧ ((callLlm env cfg stats messages).2.last_run
       = if (callLlm env cfg stats messages).1.success then some env.now
         else stats.last_run) := by
  unfold callLlm
  cases hb : stats.is_active && stats.has_llm with
  | false => simp [failResult]
  | true =>
      cases env.llmInvoke with
      | raised e => simp [failResult]
      | ok content =>
          cases hp : env.processResponse content with
          | error e => simp [hp, failResult]
          | ok d => simp [hp]

/-- The agent environment of the C9 counterexample: the LLM round trip
raises. -/
def c9env : AgentEnv :=
  { llmInvoke := LlmOutcome.raised "connection reset",
    processResponse := fun _ => Except.ok (JVal.obj []),
    systemPrompt := "sp",
    now := "t1",
    elapsed := 2 }

/-- The agent bookkeeping state before the C9 counterexample call. -/
def c9stats : AgentStats :=
  { is_active := true, has_llm := true, last_run := none,
    total_runs := 0, total_tokens := 0 }

/-- C9 (counterexample): a failed invocation completes (a failed
result is returned) yet the bookkeeping counters are left exactly as
they were — they are not updated on failure. -/
theorem c9_counterexample :
    (callLlm c9env ⟨"m", "professional"⟩ c9stats []).1.success = false
  ∧ (callLlm c9env ⟨"m", "professional"⟩ c9stats []).2 = c9stats :=
  ⟨rfl, rfl⟩

/-- C10: for any JSON-container value (dict or list), a get after a
set returns exactly the value stored, and a delete reports success
even on an absent key. -/
theorem c10_set_get_delete (storage : List (String × Cell)) (key : String) (v : JVal)
    (h : isJsonContainer v = true) :
    redisGet (redisSet storage key v).1 key = some v
  ∧ (redisDelete storage key).2 = true := by
  constructor
  · simp only [redisSet, h, if_pos, redisGet]
    rw [dictGet_dictSet_self]
  · rfl

/-- C10 (witness): the law holds at a concrete one-entry dictionary
stored under a fresh key of an empty cache. -/
theorem c10_witness :
    isJsonContainer (JVal.obj [("a", JVal.int 1)]) = true
  ∧ (redisGet (redisSet [] "k" (JVal.obj [("a", JVal.int 1)])).1 "k"
       = some (JVal.obj [("a", JVal.int 1)])
     ∧ (redisDelete ([] : List (String × Cell)) "k").2 = true) :=
  ⟨rfl, c10_set_get_delete [] "k" (JVal.obj [("a", JVal.int 1)]) rfl⟩

end AgentFlow
